import Mathlib

/-!
Shallow embedding of the spookyball ball-lifecycle system (`BallSystem` in the
ball module) and the physics debug visualizer (`Physics2DVisualizerSystem` in
`physics 2d visual.js`), with theorems checking the natural-language
specification against the code.

JavaScript numbers are modelled as real numbers; in-place mutation of
records and of gl-matrix vectors is modelled by returning the updated value;
a thrown `TypeError` (property access on `undefined`) is modelled with
`Except`; `Math.random()` is modelled by an explicit stream `rand : ℕ → ℝ`
threaded by call index.
-/

namespace SB

/-- Planar (Matter.js) vector: the physics plane, components `x` and `y`. -/
@[ext] structure Vec2 where
  x : ℝ
  y : ℝ

/-- Three-component vector, as a gl-matrix `vec3` `[x, y, z]` (also used for
RGB color triples `[r, g, b]`). -/
@[ext] structure Vec3 where
  x : ℝ
  y : ℝ
  z : ℝ

instance : Inhabited Vec2 := ⟨⟨0, 0⟩⟩
instance : Inhabited Vec3 := ⟨⟨0, 0, 0⟩⟩

/-- Model of gl-matrix `vec3.normalize`: `len = x*x + y*y + z*z`; if `len > 0`
it is replaced by `1 / Math.sqrt(len)`, and the components are multiplied by
the resulting factor. -/
noncomputable def normalize3 (v : Vec3) : Vec3 :=
  let len0 := v.x * v.x + v.y * v.y + v.z * v.z
  let len := if len0 > 0 then 1 / Real.sqrt len0 else len0
  ⟨v.x * len, v.y * len, v.z * len⟩

/-- Model of gl-matrix `vec3.scale`. -/
def scale3 (v : Vec3) (s : ℝ) : Vec3 := ⟨v.x * s, v.y * s, v.z * s⟩

/-- The `Ball` component class of the ball module. -/
structure Ball where
  waitingForLaunch : Bool
  speed : ℝ
  glowIntensity : ℝ
  color : Vec3

/-- Field initializers of `class Ball`: `waitingForLaunch = true`,
`speed = 0.5`, `glowIntensity = 45`, `color = [0.0, 0.5, 1.0]`. -/
def Ball.new : Ball := ⟨true, 0.5, 45, ⟨0, 0.5, 1⟩⟩

/-- The paddle interface read by `BallSystem.execute`: its horizontal
position `x` and its `launch` signal. -/
structure Paddle where
  x : ℝ
  launch : Bool

/-- The `GameState` singleton fields read and written by this system. -/
structure GameState where
  lives : ℤ
  level : ℝ
  levelStarting : Bool

/-- The `PointLight` fields driven by this system. -/
structure PointLight where
  color : Vec3
  intensity : ℝ

/-- A Matter.js body handle: planar position and velocity. -/
structure MatterBody where
  position : Vec2
  velocity : Vec2

/-- The `Physics2DBody` component wrapping a Matter body, as constructed by
`spawnBall`: shape kind, the wrapped body, radius, and the options bag. -/
structure Physics2DBody where
  shape : String
  body : MatterBody
  radius : ℝ
  friction : ℝ
  restitution : ℝ
  frictionAir : ℝ

/-- Result of `BallSystem.launchBall`: the mutated ball, the mutated body,
and the mutated (caller-visible) direction vector. -/
structure LaunchResult where
  ball : Ball
  body : Physics2DBody
  direction : Vec3

/-- Model of `BallSystem.launchBall(ball, body, direction)`: normalizes
`direction` in place, scales it in place by `ball.speed`, writes its `x`/`z`
components as the body's planar velocity, and clears `waitingForLaunch`. -/
noncomputable def launchBall (ball : Ball) (body : Physics2DBody) (direction : Vec3) :
    LaunchResult :=
  let d := scale3 (normalize3 direction) ball.speed
  { ball := { ball with waitingForLaunch := false },
    body := { body with body := { body.body with velocity := ⟨d.x, d.z⟩ } },
    direction := d }

/-- Planar speed as computed in `execute`:
`Math.sqrt(velocity.x ** 2 + velocity.y ** 2)`. -/
noncomputable def planarSpeed (v : Vec2) : ℝ := Real.sqrt (v.x ^ 2 + v.y ^ 2)

/-- The constant-speed maintenance step of `execute` (lines 64-74): if the
current planar speed is nonzero and below `ballSpeed`, multiply both velocity
components by `ballSpeed / speed`; otherwise leave the velocity unchanged. -/
noncomputable def speedFloor (ballSpeed : ℝ) (v : Vec2) : Vec2 :=
  let speed := planarSpeed v
  if speed ≠ 0 ∧ speed < ballSpeed then
    let scaleFactor := ballSpeed / speed
    ⟨v.x * scaleFactor, v.y * scaleFactor⟩
  else v

/-- The randomized launch direction built in `execute` on a paddle launch
signal: `[(Math.random() * 2.0 - 1.0) * 0.5, 0, -1.5]`, with `r` the value
returned by `Math.random()`. -/
def launchDirection (r : ℝ) : Vec3 := ⟨(r * 2.0 - 1.0) * 0.5, 0, -1.5⟩

/-- An entity matched by `ballQuery = query(Ball, Physics2DBody, Transform)`,
together with its optional `PointLight` and its `Tag('dead')` marker.
`transform` is the `Transform` component's position. -/
structure BallEntity where
  ball : Ball
  body : Physics2DBody
  transform : Vec3
  light : Option PointLight
  dead : Bool

/-- Outcome of the launch-positioning block of `execute` (lines 51-62) for one
ball: updated ball and body, next `Math.random()` index, and whether this ball
was counted by `waitingBallCount++`. -/
structure LaunchOut where
  ball : Ball
  body : Physics2DBody
  next : ℕ
  waiting : Bool

/-- Model of lines 51-62 of `execute`: if the ball is waiting for launch and a
paddle exists, snap the body to `{x: paddleState.x, y: 23}`; then either
launch with the randomized direction (when `paddleState.launch`) or count the
ball as waiting. -/
noncomputable def launchPhase (paddleState : Option Paddle) (rand : ℕ → ℝ) (k : ℕ)
    (e : BallEntity) : LaunchOut :=
  match paddleState with
  | some p =>
      if e.ball.waitingForLaunch then
        let body := { e.body with body := { e.body.body with position := ⟨p.x, 23⟩ } }
        if p.launch then
          let lr := launchBall e.ball body (launchDirection (rand k))
          ⟨lr.ball, lr.body, k + 1, false⟩
        else ⟨e.ball, body, k, true⟩
      else ⟨e.ball, e.body, k, false⟩
  | none => ⟨e.ball, e.body, k, false⟩

/-- Outcome of one iteration of the `ballQuery.forEach` body of `execute`:
the updated entity, whether it was counted by `ballCount++`, whether it set
`lostBall`, whether it was counted by `waitingBallCount++`, and the next
`Math.random()` index. -/
structure BallStepResult where
  entity : BallEntity
  alive : Bool
  lost : Bool
  waiting : Bool
  next : ℕ

/-- Model of the full `ballQuery.forEach` body of `execute` (lines 50-104):
launch positioning, constant-speed maintenance, speed/time driven color and
light animation, lateral curve perturbation once flying, and the ball-lost
check against depth threshold 30. -/
noncomputable def ballStep (time : ℝ) (paddleState : Option Paddle) (rand : ℕ → ℝ)
    (k : ℕ) (e : BallEntity) : BallStepResult :=
  let lo := launchPhase paddleState rand k e
  let speed := planarSpeed lo.body.body.velocity
  let body2 := { lo.body with
    body := { lo.body.body with velocity := speedFloor lo.ball.speed lo.body.body.velocity } }
  let intensity := min (speed * 70) 200
  let hue := |Real.sin (time * 0.5)| * 0.6 + 0.2
  let ball2 := { lo.ball with
    color := ⟨hue, 0.5 + 0.5 * Real.sin time, 1 - hue⟩,
    glowIntensity := 30 + intensity * 0.5 }
  let light2 := e.light.map fun _ => PointLight.mk ball2.color ball2.glowIntensity
  let body3 :=
    if ball2.waitingForLaunch then body2
    else
      let curve := Real.sin (time * 2.0) * 0.0015
      { body2 with body := { body2.body with
          velocity := ⟨body2.body.velocity.x + curve, body2.body.velocity.y⟩ } }
  if e.transform.z > 30 then
    ⟨{ e with ball := ball2, body := body3, light := light2, dead := true },
      false, true, lo.waiting, lo.next⟩
  else
    ⟨{ e with ball := ball2, body := body3, light := light2 },
      true, false, lo.waiting, lo.next⟩

/-- Accumulated result of the `ballQuery.forEach` loop: updated entities and
the `ballCount` / `lostBall` / `waitingBallCount` accumulators, plus the next
`Math.random()` index. -/
structure BallsPassResult where
  entities : List BallEntity
  ballCount : ℕ
  lostBall : Bool
  waitingCount : ℕ
  next : ℕ

/-- The `ballQuery.forEach` loop of `execute`, iterating `ballStep` over the
query results in order. -/
noncomputable def ballsPass (time : ℝ) (paddleState : Option Paddle) (rand : ℕ → ℝ) :
    ℕ → List BallEntity → BallsPassResult
  | k, [] => ⟨[], 0, false, 0, k⟩
  | k, e :: rest =>
      let r := ballStep time paddleState rand k e
      let acc := ballsPass time paddleState rand r.next rest
      ⟨r.entity :: acc.entities,
        (if r.alive then 1 else 0) + acc.ballCount,
        r.lost || acc.lostBall,
        (if r.waiting then 1 else 0) + acc.waitingCount,
        acc.next⟩

/-- The fresh `Ball` component built in `spawnBall`:
`new Ball()` with `speed = 0.5 + gameState.level * 0.04`. -/
noncomputable def freshBall (gs : GameState) : Ball :=
  { Ball.new with speed := 0.5 + gs.level * 0.04 }

/-- The physics body built in `spawnBall`: `new Physics2DBody('circle',
position[0], position[2], 0.8, {friction: 0, restitution: 1, frictionAir: 0})`,
with a Matter body initially at rest. -/
def freshBody (position : Vec3) : Physics2DBody :=
  ⟨"circle", ⟨⟨position.x, position.z⟩, ⟨0, 0⟩⟩, 0.8, 0, 1, 0⟩

/-- The entity assembled and returned by `spawnBall`. -/
structure SpawnedBall where
  ball : Ball
  transform : Vec3
  body : Physics2DBody
  light : PointLight
  impactDamage : ℕ
  shadow : Bool
  name : String

/-- Model of `BallSystem.spawnBall(position, velocity, castShadow)`: returns
`none` (JS `undefined`) when the ball scene asset has not finished loading;
otherwise builds the ball entity, launching it first when a `velocity`
direction is provided. -/
noncomputable def spawnBall (sceneLoaded : Bool) (gs : GameState) (position : Vec3)
    (velocity : Option Vec3) (castShadow : Bool) : Option SpawnedBall :=
  if sceneLoaded then
    let body := freshBody position
    let ballState := freshBall gs
    match velocity with
    | some v =>
        let lr := launchBall ballState body v
        some { ball := lr.ball, transform := position, body := lr.body,
               light := ⟨lr.ball.color, lr.ball.glowIntensity⟩,
               impactDamage := 1, shadow := castShadow, name := "The Ball" }
    | none =>
        some { ball := ballState, transform := position, body := body,
               light := ⟨ballState.color, ballState.glowIntensity⟩,
               impactDamage := 1, shadow := castShadow, name := "The Ball" }
  else none

/-- An entity matched by `bonusQuery = query(Transform, BonusBall,
Tag('dead'))` candidates: its transform position and whether it carries the
`Tag('dead')` marker (the query only yields entities with `dead = true`). -/
structure BonusEntity where
  transform : Vec3
  dead : Bool

/-- JavaScript runtime error raised by a property access on `undefined`. -/
inductive JsError
  | typeError
deriving DecidableEq

/-- Model of one iteration of the `bonusQuery.forEach` body of `execute`
(lines 107-123): build the fully randomized direction from two `Math.random()`
draws, spawn a ball at the request's position with height pinned to 1, and
recolor the spawned ball's light to fiery orange. Accessing `.get(PointLight)`
on the result of a `spawnBall` call that returned `undefined` raises a
`TypeError`. -/
noncomputable def processBonus (sceneLoaded : Bool) (gs : GameState) (ballShadows : Bool)
    (rand : ℕ → ℝ) (k : ℕ) (b : BonusEntity) : Except JsError SpawnedBall :=
  let direction : Vec3 := ⟨rand k * 2.0 - 1.0, 0, -(rand (k + 1) * 2.0 - 1.0)⟩
  match spawnBall sceneLoaded gs ⟨b.transform.x, 1, b.transform.z⟩ (some direction)
      ballShadows with
  | none => Except.error JsError.typeError
  | some bonus =>
      Except.ok { bonus with light := ⟨⟨1.0, 0.4, 0.2⟩, 60⟩ }

/-- The `bonusQuery.forEach` loop of `execute`: processes exactly the bonus
entities carrying the `Tag('dead')` marker, in order, threading the
`Math.random()` index (two draws per processed request). -/
noncomputable def bonusPass (sceneLoaded : Bool) (gs : GameState) (ballShadows : Bool)
    (rand : ℕ → ℝ) : ℕ → List BonusEntity → Except JsError (List SpawnedBall × ℕ)
  | k, [] => Except.ok ([], k)
  | k, b :: rest =>
      if b.dead then
        match processBonus sceneLoaded gs ballShadows rand k b with
        | Except.error err => Except.error err
        | Except.ok sb =>
            match bonusPass sceneLoaded gs ballShadows rand (k + 2) rest with
            | Except.error err => Except.error err
            | Except.ok (sbs, k2) => Except.ok (sb :: sbs, k2)
      else bonusPass sceneLoaded gs ballShadows rand k rest

/-- The lives update of `execute` (lines 126-127): when `ballCount === 0`,
decrement `lives` if `lostBall` was set this tick. -/
def updateLives (gs : GameState) (ballCount : ℕ) (lostBall : Bool) : GameState :=
  if ballCount = 0 then
    if lostBall then { gs with lives := gs.lives - 1 } else gs
  else gs

/-- Input of a `BallSystem.execute` tick: the `GameState` singleton, the first
paddle found by `paddleQuery` (if any), the `ballQuery` and `bonusQuery`
candidate entities, whether the ball scene asset has loaded, the
`gpu.flags.lucasMode` / `gpu.flags.ballShadows` flags, the time, and the
`Math.random()` stream. -/
structure ExecInput where
  gameState : GameState
  paddleState : Option Paddle
  balls : List BallEntity
  bonuses : List BonusEntity
  sceneLoaded : Bool
  lucasMode : Bool
  ballShadows : Bool
  time : ℝ
  rand : ℕ → ℝ

/-- Result of a `BallSystem.execute` tick that did not raise: the updated
game state, the updated ball entities, the bonus entities (as left by the
tick), and every ball spawned this tick (bonus spawns, then the respawn, then
the lucas-mode spawn). -/
structure ExecOutput where
  gameState : GameState
  balls : List BallEntity
  bonuses : List BonusEntity
  spawned : List SpawnedBall

/-- Model of `BallSystem.execute` (lines 38-136): paddle lookup, per-ball
pass, bonus spawn pass, lives update, respawn decision, and the lucas-mode
auto-spawn. The respawn branch evaluates `paddleState.x` without checking
that a paddle exists, so it raises a `TypeError` when the respawn condition
fires with no paddle; the lucas-mode branch does check `paddleState`. -/
noncomputable def execute (inp : ExecInput) : Except JsError ExecOutput :=
  let bp := ballsPass inp.time inp.paddleState inp.rand 0 inp.balls
  match bonusPass inp.sceneLoaded inp.gameState inp.ballShadows inp.rand bp.next
      inp.bonuses with
  | Except.error err => Except.error err
  | Except.ok (bonusSpawned, _) =>
      let gs := updateLives inp.gameState bp.ballCount bp.lostBall
      let respawn : Except JsError (List SpawnedBall) :=
        if bp.ballCount = 0 ∧ ¬gs.levelStarting ∧ gs.lives > 0 then
          match inp.paddleState with
          | none => Except.error JsError.typeError
          | some p =>
              match spawnBall inp.sceneLoaded gs ⟨p.x, 1, 23⟩ none inp.ballShadows with
              | some sb => Except.ok [sb]
              | none => Except.ok []
        else Except.ok []
      match respawn with
      | Except.error err => Except.error err
      | Except.ok respawned =>
          let lucas : List SpawnedBall :=
            match inp.paddleState with
            | some p =>
                if inp.lucasMode ∧ bp.waitingCount = 0 then
                  match spawnBall inp.sceneLoaded gs ⟨p.x, 1, 23⟩ none inp.ballShadows with
                  | some sb => [sb]
                  | none => []
                else []
            | none => []
          Except.ok { gameState := gs, balls := bp.entities, bonuses := inp.bonuses,
                      spawned := bonusSpawned ++ respawned ++ lucas }

/-! Embedding of `Physics2DVisualizerSystem` (`physics 2d visual.js`). -/

/-- Shape kind of a `Physics2DBody`, the closed set dispatched on by the
visualizer's `switch (body.type)`. -/
inductive ShapeKind
  | rectangle
  | circle
  | fromVertices
deriving DecidableEq

/-- A `Physics2DBody` as read by the visualizer: `bid` stands for the body's
object identity (the `WeakMap` key); the Matter state is position, angle,
velocity and local vertex list; the wrapper carries the shape kind and its
size parameters. -/
structure VBody where
  bid : ℕ
  position : Vec2
  angle : ℝ
  velocity : Vec2
  type : ShapeKind
  width : ℝ
  height : ℝ
  radius : ℝ
  vertices : List Vec2

/-- Debug-outline mesh data: the flat `Float32Array` vertex buffer contents,
the geometry draw count, the material's initial base color, and the mesh
name. -/
structure VMesh where
  verts : List ℝ
  drawCount : ℕ
  baseColorFactor : Vec3
  name : String

/-- Model of the mesh-building part of `getOrCreateVerticesMesh` (lines
72-97): for each local vertex write `[v.x - position.x, 0, v.y - position.y]`
(the middle float stays at the `Float32Array` zero default), then close the
polyline by repeating the first vertex. -/
noncomputable def buildVerticesMesh (body : VBody) : VMesh :=
  let closing : List ℝ :=
    [body.vertices.headI.x - body.position.x, 0, body.vertices.headI.y - body.position.y]
  { verts := (body.vertices.map fun v =>
        [v.x - body.position.x, 0, v.y - body.position.y]).flatten ++ closing,
    drawCount := body.vertices.length + 1,
    baseColorFactor := ⟨0, 1, 0.2⟩,
    name := "Vertices Visualization Mesh" }

/-- The `verticesMeshes` `WeakMap`, as an association list keyed by body
identity. -/
abbrev MeshCache := List (ℕ × VMesh)

/-- Lookup in the `verticesMeshes` cache by body identity. -/
def lookupMesh : MeshCache → ℕ → Option VMesh
  | [], _ => none
  | (key, m) :: rest, bid => if key = bid then some m else lookupMesh rest bid

/-- Model of `getOrCreateVerticesMesh(gpu, body)`: return the cached mesh if
one exists for this body, otherwise build one, cache it, and record the body
on the build path (third component lists the bodies built by this call). -/
noncomputable def getOrCreateVerticesMesh (cache : MeshCache) (body : VBody) :
    VMesh × MeshCache × List ℕ :=
  match lookupMesh cache body.bid with
  | some m => (m, cache, [])
  | none =>
      let m := buildVerticesMesh body
      (m, (body.bid, m) :: cache, [body.bid])

/-- A gl-matrix quaternion `[x, y, z, w]`. -/
@[ext] structure Quat where
  x : ℝ
  y : ℝ
  z : ℝ
  w : ℝ

/-- Model of `quat.identity`. -/
def quatIdentity : Quat := ⟨0, 0, 0, 1⟩

/-- Model of gl-matrix `quat.rotateZ(out, a, rad)`. -/
noncomputable def quatRotateZ (a : Quat) (rad : ℝ) : Quat :=
  let bz := Real.sin (rad * 0.5)
  let bw := Real.cos (rad * 0.5)
  ⟨a.x * bw + a.y * bz, a.y * bw - a.x * bz, a.z * bw + a.w * bz, a.w * bw - a.z * bz⟩

/-- Which mesh a visualizer draw instance is submitted with: the shared
rectangle mesh, the shared circle mesh, or a (possibly cached) vertices
mesh. -/
inductive MeshRef
  | rect
  | circle
  | fromVerts (m : VMesh)

/-- One `gpu.addFrameMeshInstance` submission: mesh, `StaticTransform`
position / orientation / optional scale, and the color written into the
mesh material's `baseColorFactor` for this instance. -/
structure DrawInstance where
  mesh : MeshRef
  position : Vec3
  orientation : Quat
  scale : Option Vec3
  color : Vec3

/-- The velocity-driven instance color of the visualizer (lines 119-123):
`t = min(hypot(vx, vy) / 10, 1)`, color `[t, 1 - t, 0.2]`. -/
noncomputable def vizColor (b : VBody) : Vec3 :=
  let speed := Real.sqrt (b.velocity.x ^ 2 + b.velocity.y ^ 2)
  let t := min (speed / 10) 1.0
  ⟨t, 1.0 - t, 0.2⟩

/-- Model of the `bodyQuery.forEach` body of `Physics2DVisualizerSystem.execute`
(lines 113-161): compute position, orientation, velocity color and pulse,
then dispatch on the shape kind. Rectangle and circle scale by the pulse; the
`fromVertices` variant is submitted without a scale and uses the lazily built
cached mesh. -/
noncomputable def renderBody (time : ℝ) (cache : MeshCache) (body : VBody) :
    DrawInstance × MeshCache × List ℕ :=
  let position : Vec3 := ⟨body.position.x, 0, body.position.y⟩
  let q := quatRotateZ quatIdentity body.angle
  let color := vizColor body
  let pulse := 1 + 0.05 * Real.sin (time * 5)
  match body.type with
  | ShapeKind.rectangle =>
      (⟨MeshRef.rect, position, q, some ⟨body.width * pulse, 1, body.height * pulse⟩, color⟩,
        cache, [])
  | ShapeKind.circle =>
      (⟨MeshRef.circle, position, q, some ⟨body.radius * pulse, 1, body.radius * pulse⟩, color⟩,
        cache, [])
  | ShapeKind.fromVertices =>
      let r := getOrCreateVerticesMesh cache body
      (⟨MeshRef.fromVerts r.1, position, q, none, color⟩, r.2.1, r.2.2)

/-- The `bodyQuery.forEach` loop of `Physics2DVisualizerSystem.execute`:
the submitted draw instances, the final mesh cache, and the bodies built on
the `getOrCreateVerticesMesh` build path this pass. -/
noncomputable def renderPass (time : ℝ) : MeshCache → List VBody →
    List DrawInstance × MeshCache × List ℕ
  | cache, [] => ([], cache, [])
  | cache, b :: rest =>
      let r := renderBody time cache b
      let acc := renderPass time r.2.1 rest
      (r.1 :: acc.1, acc.2.1, r.2.2 ++ acc.2.2)

/-- A sequence of debug-render passes (one per frame), threading the mesh
cache; returns the final cache and the concatenated build-path record. -/
noncomputable def renderSeq : List (ℝ × List VBody) → MeshCache → MeshCache × List ℕ
  | [], cache => (cache, [])
  | (t, bs) :: rest, cache =>
      let r := renderPass t cache bs
      let acc := renderSeq rest r.2.1
      (acc.1, r.2.2 ++ acc.2)

/-- The draw-instance parameters named by the spec's idempotence property:
position, orientation, scale and color of a submission. -/
def instParams (i : DrawInstance) : Vec3 × Quat × Option Vec3 × Vec3 :=
  (i.position, i.orientation, i.scale, i.color)

/-! Theorems. -/

/-- C1: the claim says that with zero balls alive and no paddle the respawn
step is skipped and the tick completes without error. The code violates this:
on a tick with no balls, no paddle, `lives = 1` and `levelStarting = false`,
the respawn branch evaluates `paddleState.x` on `undefined` and the tick
raises a `TypeError` instead of completing. -/
theorem execute_respawn_no_paddle_throws :
    execute { gameState := { lives := 1, level := 1, levelStarting := false },
              paddleState := none, balls := [], bonuses := [], sceneLoaded := true,
              lucasMode := false, ballShadows := false, time := 0, rand := fun _ => 0 }
      = Except.error JsError.typeError := by
  rfl

/-- C2: `spawnBall` is a silent no-op whenever the ball scene asset has not
loaded, but the claim that a tick containing such a call always completes
without error fails: the bonus spawn pass reads `.get(PointLight)` off
`spawnBall`'s return value, so a tick with a pending bonus request and an
unloaded asset raises a `TypeError`. -/
theorem spawnBall_unloaded_noop_but_bonus_pass_throws :
    (∀ gs position velocity castShadow,
        spawnBall false gs position velocity castShadow = none)
    ∧ execute { gameState := { lives := 0, level := 1, levelStarting := false },
                paddleState := some { x := 0, launch := false },
                balls := [], bonuses := [{ transform := ⟨0, 0, 0⟩, dead := true }],
                sceneLoaded := false, lucasMode := false, ballShadows := false,
                time := 0, rand := fun _ => 0 }
        = Except.error JsError.typeError := by
  exact ⟨fun gs position velocity castShadow => rfl, rfl⟩

lemma planarSpeed_nonneg (v : Vec2) : 0 ≤ planarSpeed v := Real.sqrt_nonneg _

lemma planarSpeed_scale (c : ℝ) (hc : 0 ≤ c) (v : Vec2) :
    planarSpeed ⟨v.x * c, v.y * c⟩ = c * planarSpeed v := by
  unfold planarSpeed
  rw [show (v.x * c) ^ 2 + (v.y * c) ^ 2 = c ^ 2 * (v.x ^ 2 + v.y ^ 2) by ring,
    Real.sqrt_mul (sq_nonneg c), Real.sqrt_sq hc]

/-- C3: in the speed-floor step, a ball with planar speed strictly between 0
and `ball.speed` is rescaled by the positive factor `ball.speed / speed` to
planar speed exactly `ball.speed` with direction preserved; zero velocity is
left untouched; speeds at or above `ball.speed` are not capped; and the step
never decreases the planar speed. -/
theorem speedFloor_props (s : ℝ) (v : Vec2) :
    (0 < planarSpeed v → planarSpeed v < s →
      planarSpeed (speedFloor s v) = s ∧
      ∃ c : ℝ, 0 < c ∧ speedFloor s v = ⟨v.x * c, v.y * c⟩)
    ∧ (v = ⟨0, 0⟩ → speedFloor s v = v)
    ∧ (s ≤ planarSpeed v → speedFloor s v = v)
    ∧ planarSpeed v ≤ planarSpeed (speedFloor s v) := by
  have hrescale : ∀ hcond : planarSpeed v ≠ 0 ∧ planarSpeed v < s,
      speedFloor s v = ⟨v.x * (s / planarSpeed v), v.y * (s / planarSpeed v)⟩ := by
    intro hcond
    simp only [speedFloor]
    rw [if_pos hcond]
  refine ⟨?_, ?_, ?_, ?_⟩
  · intro hpos hlt
    have hcond : planarSpeed v ≠ 0 ∧ planarSpeed v < s := ⟨ne_of_gt hpos, hlt⟩
    have hc : 0 < s / planarSpeed v := div_pos (lt_trans hpos hlt) hpos
    refine ⟨?_, s / planarSpeed v, hc, hrescale hcond⟩
    rw [hrescale hcond, planarSpeed_scale _ hc.le, div_mul_cancel₀ _ (ne_of_gt hpos)]
  · intro h
    subst h
    norm_num [speedFloor, planarSpeed]
  · intro h
    simp only [speedFloor]
    rw [if_neg fun hcon => absurd hcon.2 (not_lt.mpr h)]
  · by_cases hcond : planarSpeed v ≠ 0 ∧ planarSpeed v < s
    · have hpos : 0 < planarSpeed v :=
        lt_of_le_of_ne (planarSpeed_nonneg v) (Ne.symm hcond.1)
      have hc : 0 < s / planarSpeed v := div_pos (lt_trans hpos hcond.2) hpos
      rw [hrescale hcond, planarSpeed_scale _ hc.le, div_mul_cancel₀ _ (ne_of_gt hpos)]
      exact le_of_lt hcond.2
    · simp only [speedFloor]
      rw [if_neg hcond]

/-- Witness for C3 at velocity `(3, 4)` (planar speed 5) and
`ball.speed = 10`. -/
theorem speedFloor_props_witness :
    0 < planarSpeed ⟨3, 4⟩ ∧ planarSpeed (⟨3, 4⟩ : Vec2) < 10 ∧
    (planarSpeed (speedFloor 10 ⟨3, 4⟩) = 10 ∧
      ∃ c : ℝ, 0 < c ∧ speedFloor 10 ⟨3, 4⟩ = ⟨3 * c, 4 * c⟩) := by
  have h5 : planarSpeed (⟨3, 4⟩ : Vec2) = 5 := by
    unfold planarSpeed
    rw [show ((3 : ℝ) ^ 2 + (4 : ℝ) ^ 2) = 5 ^ 2 by norm_num,
      Real.sqrt_sq (by norm_num : (0 : ℝ) ≤ 5)]
  have h1 : 0 < planarSpeed (⟨3, 4⟩ : Vec2) := by rw [h5]; norm_num
  have h2 : planarSpeed (⟨3, 4⟩ : Vec2) < 10 := by rw [h5]; norm_num
  exact ⟨h1, h2, (speedFloor_props 10 ⟨3, 4⟩).1 h1 h2⟩

lemma normalize3_pos (v : Vec3) (h : 0 < v.x * v.x + v.y * v.y + v.z * v.z) :
    normalize3 v = ⟨v.x * (1 / Real.sqrt (v.x * v.x + v.y * v.y + v.z * v.z)),
                    v.y * (1 / Real.sqrt (v.x * v.x + v.y * v.y + v.z * v.z)),
                    v.z * (1 / Real.sqrt (v.x * v.x + v.y * v.y + v.z * v.z))⟩ := by
  simp only [normalize3]
  rw [if_pos h]

lemma launchBall_velocity (ball : Ball) (body : Physics2DBody) (d : Vec3) :
    (launchBall ball body d).body.body.velocity =
      ⟨(scale3 (normalize3 d) ball.speed).x, (scale3 (normalize3 d) ball.speed).z⟩ := rfl

lemma launchBall_planarSpeed (ball : Ball) (body : Physics2DBody) (d : Vec3)
    (hy : d.y = 0) (hlen : 0 < d.x * d.x + d.y * d.y + d.z * d.z)
    (hs : 0 < ball.speed) :
    planarSpeed (launchBall ball body d).body.body.velocity = ball.speed := by
  have h1 : Real.sqrt (d.x * d.x + d.y * d.y + d.z * d.z) ^ 2
      = d.x * d.x + d.y * d.y + d.z * d.z := Real.sq_sqrt hlen.le
  have hLne : d.x * d.x + d.y * d.y + d.z * d.z ≠ 0 := ne_of_gt hlen
  rw [launchBall_velocity, normalize3_pos d hlen]
  show Real.sqrt
      ((d.x * (1 / Real.sqrt (d.x * d.x + d.y * d.y + d.z * d.z)) * ball.speed) ^ 2
        + (d.z * (1 / Real.sqrt (d.x * d.x + d.y * d.y + d.z * d.z)) * ball.speed) ^ 2)
    = ball.speed
  have key : (d.x * (1 / Real.sqrt (d.x * d.x + d.y * d.y + d.z * d.z)) * ball.speed) ^ 2
      + (d.z * (1 / Real.sqrt (d.x * d.x + d.y * d.y + d.z * d.z)) * ball.speed) ^ 2
      = ball.speed ^ 2 := by
    have expand : ∀ u w c q : ℝ, (u * c * q) ^ 2 + (w * c * q) ^ 2
        = (u * u + w * w) * c ^ 2 * q ^ 2 := by intro u w c q; ring
    rw [expand, div_pow, one_pow, h1,
      show d.x * d.x + d.z * d.z = d.x * d.x + d.y * d.y + d.z * d.z by rw [hy]; ring,
      mul_one_div, div_self hLne, one_mul]
  rw [key, Real.sqrt_sq hs.le]

/-- C4: a waiting ball launched by a paddle launch signal uses a
pre-normalization direction with depth component exactly -1.5 and lateral
component in [-0.5, 0.5], and after `launchBall`'s normalize-and-scale the
body's planar velocity magnitude equals `ball.speed` exactly. -/
theorem launch_direction_props (r : ℝ) (ball : Ball) (body : Physics2DBody)
    (h0 : 0 ≤ r) (h1 : r < 1) (hs : 0 < ball.speed) :
    (launchDirection r).z = -1.5
    ∧ -(0.5 : ℝ) ≤ (launchDirection r).x ∧ (launchDirection r).x ≤ 0.5
    ∧ planarSpeed (launchBall ball body (launchDirection r)).body.body.velocity
        = ball.speed := by
  refine ⟨rfl, ?_, ?_, ?_⟩
  · show -(0.5 : ℝ) ≤ (r * 2.0 - 1.0) * 0.5
    nlinarith
  · show (r * 2.0 - 1.0) * 0.5 ≤ 0.5
    nlinarith
  · refine launchBall_planarSpeed ball body (launchDirection r) rfl ?_ hs
    show 0 < (r * 2.0 - 1.0) * 0.5 * ((r * 2.0 - 1.0) * 0.5)
        + (0 : ℝ) * 0 + (-1.5 : ℝ) * -1.5
    nlinarith [mul_self_nonneg ((r * 2.0 - 1.0) * 0.5)]

/-- Witness for C4 at `Math.random() = 1/2` with a freshly constructed
default ball. -/
theorem launch_direction_props_witness :
    (0 : ℝ) ≤ 1 / 2 ∧ (1 / 2 : ℝ) < 1 ∧ 0 < Ball.new.speed ∧
    planarSpeed (launchBall Ball.new (freshBody ⟨0, 1, 23⟩)
        (launchDirection (1 / 2))).body.body.velocity = Ball.new.speed := by
  have hs : 0 < Ball.new.speed := by norm_num [Ball.new]
  exact ⟨by norm_num, by norm_num, hs,
    (launch_direction_props (1 / 2) Ball.new (freshBody ⟨0, 1, 23⟩)
      (by norm_num) (by norm_num) hs).2.2.2⟩

/-- C5: in the per-ball loss check a ball at depth 29 is counted alive and
not tagged, a ball at depth 30.1 is tagged dead and sets the loss flag, and
the lives update decrements `lives` by exactly 1 when the alive count is 0
with a loss this tick and leaves the game state unchanged when the count is
0 without a loss. -/
theorem loss_check_and_lives (time : ℝ) (pad : Option Paddle) (rand : ℕ → ℝ) (k : ℕ)
    (e29 e30 : BallEntity) (gs : GameState)
    (h29 : e29.transform.z = 29) (h29d : e29.dead = false)
    (h30 : e30.transform.z = 30.1) :
    ((ballStep time pad rand k e29).alive = true
      ∧ (ballStep time pad rand k e29).entity.dead = false
      ∧ (ballStep time pad rand k e29).lost = false)
    ∧ ((ballStep time pad rand k e30).entity.dead = true
      ∧ (ballStep time pad rand k e30).lost = true
      ∧ (ballStep time pad rand k e30).alive = false)
    ∧ (updateLives gs 0 true).lives = gs.lives - 1
    ∧ updateLives gs 0 false = gs := by
  have hn29 : ¬ e29.transform.z > 30 := by rw [h29]; norm_num
  have hy30 : e30.transform.z > 30 := by rw [h30]; norm_num
  refine ⟨?_, ?_, ?_, ?_⟩
  · simp only [ballStep]
    rw [if_neg hn29]
    exact ⟨rfl, h29d, rfl⟩
  · simp only [ballStep]
    rw [if_pos hy30]
    exact ⟨rfl, rfl, rfl⟩
  · rfl
  · rfl

/-- Concrete ball entity at depth `z`, used as witness input. -/
def eAt (z : ℝ) : BallEntity := ⟨Ball.new, freshBody ⟨0, 1, z⟩, ⟨0, 0, z⟩, none, false⟩

/-- Witness for C5 at depths 29 and 30.1 with 3 lives. -/
theorem loss_check_and_lives_witness :
    (eAt 29).transform.z = 29 ∧ (eAt 29).dead = false ∧ (eAt 30.1).transform.z = 30.1
    ∧ (((ballStep 0 none (fun _ => 0) 0 (eAt 29)).alive = true
        ∧ (ballStep 0 none (fun _ => 0) 0 (eAt 29)).entity.dead = false
        ∧ (ballStep 0 none (fun _ => 0) 0 (eAt 29)).lost = false)
      ∧ ((ballStep 0 none (fun _ => 0) 0 (eAt 30.1)).entity.dead = true
        ∧ (ballStep 0 none (fun _ => 0) 0 (eAt 30.1)).lost = true
        ∧ (ballStep 0 none (fun _ => 0) 0 (eAt 30.1)).alive = false)
      ∧ (updateLives ⟨3, 1, false⟩ 0 true).lives = (⟨3, 1, false⟩ : GameState).lives - 1
      ∧ updateLives ⟨3, 1, false⟩ 0 false = ⟨3, 1, false⟩) :=
  ⟨rfl, rfl, rfl,
    loss_check_and_lives 0 none (fun _ => 0) 0 (eAt 29) (eAt 30.1) ⟨3, 1, false⟩
      rfl rfl rfl⟩

lemma ballStep_wfl (time : ℝ) (pad : Option Paddle) (rand : ℕ → ℝ) (k : ℕ)
    (e : BallEntity) :
    (ballStep time pad rand k e).entity.ball.waitingForLaunch
      = (launchPhase pad rand k e).ball.waitingForLaunch := by
  simp only [ballStep]
  by_cases hz : e.transform.z > 30
  · rw [if_pos hz]
  · rw [if_neg hz]

lemma launchPhase_wfl (pad : Option Paddle) (rand : ℕ → ℝ) (k : ℕ) (e : BallEntity) :
    (launchPhase pad rand k e).ball.waitingForLaunch
      = (e.ball.waitingForLaunch
          && !(match pad with | some p => p.launch | none => false)) := by
  cases pad with
  | none => simp [launchPhase]
  | some p =>
      cases hw : e.ball.waitingForLaunch with
      | false => simp [launchPhase, hw]
      | true =>
          cases hl : p.launch with
          | false => simp [launchPhase, hw, hl]
          | true => simp [launchPhase, launchBall, hw, hl]

lemma spawnBall_loaded_none (gs : GameState) (position : Vec3) (castShadow : Bool) :
    spawnBall true gs position none castShadow =
      some { ball := freshBall gs, transform := position, body := freshBody position,
             light := ⟨(freshBall gs).color, (freshBall gs).glowIntensity⟩,
             impactDamage := 1, shadow := castShadow, name := "The Ball" } := rfl

lemma spawnBall_loaded_some (gs : GameState) (position : Vec3) (v : Vec3)
    (castShadow : Bool) :
    spawnBall true gs position (some v) castShadow =
      some { ball := (launchBall (freshBall gs) (freshBody position) v).ball,
             transform := position,
             body := (launchBall (freshBall gs) (freshBody position) v).body,
             light := ⟨(launchBall (freshBall gs) (freshBody position) v).ball.color,
                       (launchBall (freshBall gs) (freshBody position) v).ball.glowIntensity⟩,
             impactDamage := 1, shadow := castShadow, name := "The Ball" } := rfl

/-- C6: the `waitingForLaunch` flag is cleared only by a launch transition
(paddle launch signal while waiting, or spawning with a non-null direction),
and no operation of this system sets it back to `true`: a per-ball tick step
keeps a flying ball flying, a waiting ball leaves the waiting state only when
a paddle exists and signals launch, `launchBall` always clears the flag, and
`spawnBall` starts the ball waiting exactly when no direction is given. -/
theorem waitingForLaunch_one_way :
    (∀ time pad rand k e, e.ball.waitingForLaunch = false →
        (ballStep time pad rand k e).entity.ball.waitingForLaunch = false)
    ∧ (∀ time pad rand k e, e.ball.waitingForLaunch = true →
        (ballStep time pad rand k e).entity.ball.waitingForLaunch = false →
        ∃ p, pad = some p ∧ p.launch = true)
    ∧ (∀ ball body d, (launchBall ball body d).ball.waitingForLaunch = false)
    ∧ (∀ gs position castShadow sb,
        spawnBall true gs position none castShadow = some sb →
        sb.ball.waitingForLaunch = true)
    ∧ (∀ gs position v castShadow sb,
        spawnBall true gs position (some v) castShadow = some sb →
        sb.ball.waitingForLaunch = false) := by
  refine ⟨?_, ?_, ?_, ?_, ?_⟩
  · intro time pad rand k e h
    rw [ballStep_wfl, launchPhase_wfl, h]
    rfl
  · intro time pad rand k e ht hf
    rw [ballStep_wfl, launchPhase_wfl, ht] at hf
    cases pad with
    | none => simp at hf
    | some p =>
        simp at hf
        exact ⟨p, rfl, hf⟩
  · intro ball body d
    rfl
  · intro gs position castShadow sb h
    rw [spawnBall_loaded_none] at h
    injection h with h2
    rw [← h2]
    rfl
  · intro gs position v castShadow sb h
    rw [spawnBall_loaded_some] at h
    injection h with h2
    rw [← h2]
    rfl

/-- Concrete game state used as witness input. -/
def gs0 : GameState := ⟨3, 1, false⟩

/-- Concrete flying-ball entity used as witness input. -/
def eFly : BallEntity :=
  ⟨{ Ball.new with waitingForLaunch := false }, freshBody ⟨0, 1, 23⟩, ⟨0, 1, 23⟩, none, false⟩

/-- Concrete waiting-ball entity used as witness input. -/
def eWait : BallEntity := ⟨Ball.new, freshBody ⟨0, 1, 23⟩, ⟨0, 1, 23⟩, none, false⟩

/-- Concrete ball spawned without a direction, used as witness input. -/
noncomputable def sbWaiting : SpawnedBall :=
  { ball := freshBall gs0, transform := ⟨5, 1, 23⟩, body := freshBody ⟨5, 1, 23⟩,
    light := ⟨(freshBall gs0).color, (freshBall gs0).glowIntensity⟩,
    impactDamage := 1, shadow := false, name := "The Ball" }

/-- Concrete ball spawned with direction `[1, 0, -1]`, used as witness
input. -/
noncomputable def sbFlying : SpawnedBall :=
  { ball := (launchBall (freshBall gs0) (freshBody ⟨5, 1, 23⟩) ⟨1, 0, -1⟩).ball,
    transform := ⟨5, 1, 23⟩,
    body := (launchBall (freshBall gs0) (freshBody ⟨5, 1, 23⟩) ⟨1, 0, -1⟩).body,
    light := ⟨(launchBall (freshBall gs0) (freshBody ⟨5, 1, 23⟩) ⟨1, 0, -1⟩).ball.color,
              (launchBall (freshBall gs0) (freshBody ⟨5, 1, 23⟩) ⟨1, 0, -1⟩).ball.glowIntensity⟩,
    impactDamage := 1, shadow := false, name := "The Ball" }

/-- Witness for C6: a flying ball stays flying through a tick step, a
launching paddle explains a cleared flag, and concrete spawns with and
without a direction start in the expected state. -/
theorem waitingForLaunch_one_way_witness :
    (ballStep 0 none (fun _ => 0) 0 eFly).entity.ball.waitingForLaunch = false
    ∧ (∃ p, (some (Paddle.mk 0 true) : Option Paddle) = some p ∧ p.launch = true)
    ∧ sbWaiting.ball.waitingForLaunch = true
    ∧ sbFlying.ball.waitingForLaunch = false := by
  refine ⟨waitingForLaunch_one_way.1 0 none (fun _ => 0) 0 eFly rfl, ?_, ?_, ?_⟩
  · refine waitingForLaunch_one_way.2.1 0 (some ⟨0, true⟩) (fun _ => 0) 0 eWait rfl ?_
    rw [ballStep_wfl, launchPhase_wfl]
    rfl
  · exact waitingForLaunch_one_way.2.2.2.1 gs0 ⟨5, 1, 23⟩ false sbWaiting rfl
  · exact waitingForLaunch_one_way.2.2.2.2 gs0 ⟨5, 1, 23⟩ ⟨1, 0, -1⟩ false sbFlying rfl

lemma renderBody_params (time : ℝ) (c c' : MeshCache) (b : VBody) :
    instParams (renderBody time c b).1 = instParams (renderBody time c' b).1 := by
  cases hb : b.type <;> simp [renderBody, hb, instParams]

/-- C7: the debug-render pass is a deterministic function of (body state,
time): whatever the state of the lazily built mesh cache, the submitted
draw-instance parameters (position, orientation, scale, color) are the
same, so two passes over identical physics-body state at identical time
submit identical parameters. -/
theorem renderPass_deterministic (time : ℝ) (bodies : List VBody) (c1 c2 : MeshCache) :
    ((renderPass time c1 bodies).1).map instParams
      = ((renderPass time c2 bodies).1).map instParams := by
  induction bodies generalizing c1 c2 with
  | nil => rfl
  | cons b rest ih =>
      simp only [renderPass, List.map_cons]
      rw [renderBody_params time c1 c2 b,
        ih ((renderBody time c1 b).2.1) ((renderBody time c2 b).2.1)]

lemma renderBody_fromVertices_cached (time : ℝ) (c : MeshCache) (b : VBody) (m : VMesh)
    (htype : b.type = ShapeKind.fromVertices) (hm : lookupMesh c b.bid = some m) :
    renderBody time c b =
      (⟨MeshRef.fromVerts m, ⟨b.position.x, 0, b.position.y⟩,
        quatRotateZ quatIdentity b.angle, none, vizColor b⟩, c, []) := by
  simp only [renderBody, htype, getOrCreateVerticesMesh, hm]

lemma renderBody_fromVertices_new (time : ℝ) (c : MeshCache) (b : VBody)
    (htype : b.type = ShapeKind.fromVertices) (hm : lookupMesh c b.bid = none) :
    renderBody time c b =
      (⟨MeshRef.fromVerts (buildVerticesMesh b), ⟨b.position.x, 0, b.position.y⟩,
        quatRotateZ quatIdentity b.angle, none, vizColor b⟩,
        (b.bid, buildVerticesMesh b) :: c, [b.bid]) := by
  simp only [renderBody, htype, getOrCreateVerticesMesh, hm]

lemma renderBody_cache_mono (time : ℝ) (c : MeshCache) (b : VBody) (k : ℕ) (m : VMesh)
    (h : lookupMesh c k = some m) :
    lookupMesh (renderBody time c b).2.1 k = some m := by
  cases htype : b.type with
  | rectangle => simpa [renderBody, htype] using h
  | circle => simpa [renderBody, htype] using h
  | fromVertices =>
      cases hm : lookupMesh c b.bid with
      | some m2 => rw [renderBody_fromVertices_cached time c b m2 htype hm]; exact h
      | none =>
          rw [renderBody_fromVertices_new time c b htype hm]
          simp only [lookupMesh]
          rw [if_neg]
          · exact h
          · intro he
            rw [he] at hm
            rw [h] at hm
            exact Option.noConfusion hm

lemma renderBody_builds_spec (time : ℝ) (c : MeshCache) (b : VBody) (k : ℕ)
    (h : k ∈ (renderBody time c b).2.2) :
    lookupMesh c k = none ∧ ∃ m, lookupMesh (renderBody time c b).2.1 k = some m := by
  cases htype : b.type with
  | rectangle => simp [renderBody, htype] at h
  | circle => simp [renderBody, htype] at h
  | fromVertices =>
      cases hm : lookupMesh c b.bid with
      | some m2 =>
          rw [renderBody_fromVertices_cached time c b m2 htype hm] at h
          simp at h
      | none =>
          rw [renderBody_fromVertices_new time c b htype hm] at h ⊢
          have hk : k = b.bid := by simpa using h
          subst hk
          refine ⟨hm, buildVerticesMesh b, ?_⟩
          simp [lookupMesh]

lemma renderBody_builds_nodup (time : ℝ) (c : MeshCache) (b : VBody) :
    ((renderBody time c b).2.2).Nodup := by
  cases htype : b.type with
  | rectangle => simp [renderBody, htype]
  | circle => simp [renderBody, htype]
  | fromVertices =>
      cases hm : lookupMesh c b.bid with
      | some m2 => rw [renderBody_fromVertices_cached time c b m2 htype hm]; simp
      | none => rw [renderBody_fromVertices_new time c b htype hm]; simp

lemma renderPass_cons (time : ℝ) (c : MeshCache) (b : VBody) (rest : List VBody) :
    renderPass time c (b :: rest)
      = ((renderBody time c b).1 :: (renderPass time (renderBody time c b).2.1 rest).1,
         (renderPass time (renderBody time c b).2.1 rest).2.1,
         (renderBody time c b).2.2
           ++ (renderPass time (renderBody time c b).2.1 rest).2.2) := rfl

lemma renderPass_spec (time : ℝ) (bodies : List VBody) :
    ∀ c : MeshCache,
      (∀ k m, lookupMesh c k = some m →
        lookupMesh (renderPass time c bodies).2.1 k = some m)
      ∧ (∀ k, k ∈ (renderPass time c bodies).2.2 →
          lookupMesh c k = none ∧ ∃ m, lookupMesh (renderPass time c bodies).2.1 k = some m)
      ∧ ((renderPass time c bodies).2.2).Nodup := by
  induction bodies with
  | nil =>
      intro c
      exact ⟨fun k m h => h, fun k h => absurd h (List.not_mem_nil k), List.nodup_nil⟩
  | cons b rest ih =>
      intro c
      obtain ⟨ihmono, ihspec, ihnodup⟩ := ih (renderBody time c b).2.1
      rw [renderPass_cons]
      refine ⟨?_, ?_, ?_⟩
      · intro k m h
        exact ihmono k m (renderBody_cache_mono time c b k m h)
      · intro k h
        rcases List.mem_append.mp h with h1 | h2
        · obtain ⟨hnone, m, hsome⟩ := renderBody_builds_spec time c b k h1
          exact ⟨hnone, m, ihmono k m hsome⟩
        · obtain ⟨hnone, hx⟩ := ihspec k h2
          refine ⟨?_, hx⟩
          cases hc : lookupMesh c k with
          | none => rfl
          | some m =>
              have hmono := renderBody_cache_mono time c b k m hc
              rw [hmono] at hnone
              exact Option.noConfusion hnone
      · refine List.Nodup.append (renderBody_builds_nodup time c b) ihnodup ?_
        intro k hk1 hk2
        obtain ⟨hnone, m, hsome⟩ := renderBody_builds_spec time c b k hk1
        obtain ⟨hnone2, _⟩ := ihspec k hk2
        rw [hsome] at hnone2
        exact Option.noConfusion hnone2

lemma renderSeq_cons (t : ℝ) (bs : List VBody) (rest : List (ℝ × List VBody))
    (c : MeshCache) :
    renderSeq ((t, bs) :: rest) c
      = ((renderSeq rest (renderPass t c bs).2.1).1,
         (renderPass t c bs).2.2 ++ (renderSeq rest (renderPass t c bs).2.1).2) := rfl

lemma renderSeq_spec (frames : List (ℝ × List VBody)) :
    ∀ c : MeshCache,
      (∀ k m, lookupMesh c k = some m → lookupMesh (renderSeq frames c).1 k = some m)
      ∧ (∀ k, k ∈ (renderSeq frames c).2 →
          lookupMesh c k = none ∧ ∃ m, lookupMesh (renderSeq frames c).1 k = some m)
      ∧ ((renderSeq frames c).2).Nodup := by
  induction frames with
  | nil =>
      intro c
      exact ⟨fun k m h => h, fun k h => absurd h (List.not_mem_nil k), List.nodup_nil⟩
  | cons f rest ih =>
      obtain ⟨t, bs⟩ := f
      intro c
      obtain ⟨pmono, pspec, pnodup⟩ := renderPass_spec t bs c
      obtain ⟨ihmono, ihspec, ihnodup⟩ := ih (renderPass t c bs).2.1
      rw [renderSeq_cons]
      refine ⟨?_, ?_, ?_⟩
      · intro k m h
        exact ihmono k m (pmono k m h)
      · intro k h
        rcases List.mem_append.mp h with h1 | h2
        · obtain ⟨hnone, m, hsome⟩ := pspec k h1
          exact ⟨hnone, m, ihmono k m hsome⟩
        · obtain ⟨hnone, hx⟩ := ihspec k h2
          refine ⟨?_, hx⟩
          cases hc : lookupMesh c k with
          | none => rfl
          | some m =>
              have hmono := pmono k m hc
              rw [hmono] at hnone
              exact Option.noConfusion hnone
      · refine List.Nodup.append pnodup ihnodup ?_
        intro k hk1 hk2
        obtain ⟨hnone, m, hsome⟩ := pspec k hk1
        obtain ⟨hnone2, _⟩ := ihspec k hk2
        rw [hsome] at hnone2
        exact Option.noConfusion hnone2

/-- C8: a `fromVertices` outline mesh is built at most once per distinct
body: a cached body is redrawn with the identical cached mesh, an unchanged
cache, and nothing on the build path; an uncached body builds and caches its
mesh exactly once; across any sequence of passes no body identity ever
appears twice on the build path, and only identities absent from the initial
cache appear at all. The `fromVertices` instance is submitted with no pulse
scale factor, while rectangle and circle instances scale by the pulse. -/
theorem vertices_mesh_built_once :
    (∀ time c b m, b.type = ShapeKind.fromVertices → lookupMesh c b.bid = some m →
        renderBody time c b =
          (⟨MeshRef.fromVerts m, ⟨b.position.x, 0, b.position.y⟩,
            quatRotateZ quatIdentity b.angle, none, vizColor b⟩, c, []))
    ∧ (∀ time c b, b.type = ShapeKind.fromVertices → lookupMesh c b.bid = none →
        renderBody time c b =
          (⟨MeshRef.fromVerts (buildVerticesMesh b), ⟨b.position.x, 0, b.position.y⟩,
            quatRotateZ quatIdentity b.angle, none, vizColor b⟩,
            (b.bid, buildVerticesMesh b) :: c, [b.bid]))
    ∧ (∀ time c b, b.type = ShapeKind.rectangle →
        (renderBody time c b).1.scale
          = some ⟨b.width * (1 + 0.05 * Real.sin (time * 5)), 1,
                  b.height * (1 + 0.05 * Real.sin (time * 5))⟩)
    ∧ (∀ time c b, b.type = ShapeKind.circle →
        (renderBody time c b).1.scale
          = some ⟨b.radius * (1 + 0.05 * Real.sin (time * 5)), 1,
                  b.radius * (1 + 0.05 * Real.sin (time * 5))⟩)
    ∧ (∀ frames c, ((renderSeq frames c).2).Nodup
        ∧ ∀ k, k ∈ (renderSeq frames c).2 → lookupMesh c k = none) := by
  refine ⟨renderBody_fromVertices_cached, renderBody_fromVertices_new, ?_, ?_, ?_⟩
  · intro time c b htype
    simp [renderBody, htype]
  · intro time c b htype
    simp [renderBody, htype]
  · intro frames c
    obtain ⟨_, sspec, snodup⟩ := renderSeq_spec frames c
    exact ⟨snodup, fun k h => (sspec k h).1⟩

/-- Concrete `fromVertices` body used as witness input. -/
def bVerts : VBody :=
  ⟨7, ⟨1, 2⟩, 0, ⟨0, 0⟩, ShapeKind.fromVertices, 0, 0, 0, [⟨0, 0⟩, ⟨1, 0⟩, ⟨0, 1⟩]⟩

/-- The outline mesh of `bVerts`, used as the cached entry in the witness. -/
noncomputable def mVerts : VMesh := buildVerticesMesh bVerts

/-- Witness for C8: redrawing a cached `fromVertices` body reuses the cached
mesh, leaves the cache unchanged, and builds nothing. -/
theorem vertices_mesh_built_once_witness :
    renderBody 0 [(7, mVerts)] bVerts =
      (⟨MeshRef.fromVerts mVerts, ⟨bVerts.position.x, 0, bVerts.position.y⟩,
        quatRotateZ quatIdentity bVerts.angle, none, vizColor bVerts⟩, [(7, mVerts)], []) :=
  vertices_mesh_built_once.1 0 [(7, mVerts)] bVerts mVerts rfl rfl

/-- Concrete bonus-request entity already carrying the `Tag('dead')`
marker. -/
def bonusReqA : BonusEntity := ⟨⟨4, 0, 7⟩, true⟩

/-- Concrete bonus-request entity without the `Tag('dead')` marker. -/
def bonusReqB : BonusEntity := ⟨⟨4, 0, 7⟩, false⟩

/-- Concrete tick input with one already-tagged bonus request, no paddle, no
balls and no lives (so no respawn fires). -/
noncomputable def c9InA : ExecInput :=
  { gameState := { lives := 0, level := 0, levelStarting := true },
    paddleState := none, balls := [], bonuses := [bonusReqA], sceneLoaded := true,
    lucasMode := false, ballShadows := false, time := 0, rand := fun _ => 0 }

/-- The same tick input with the bonus request not yet tagged. -/
noncomputable def c9InB : ExecInput :=
  { gameState := { lives := 0, level := 0, levelStarting := true },
    paddleState := none, balls := [], bonuses := [bonusReqB], sceneLoaded := true,
    lucasMode := false, ballShadows := false, time := 0, rand := fun _ => 0 }

/-- C9 counterexample: the bonus spawn pass does not tag the request entity
for destruction — the `Tag('dead')` marker is part of the `bonusQuery`
selection criteria, not something this pass adds. On a concrete tick, a
request already tagged dead is processed (exactly one ball spawned) and
comes out of the tick exactly as it went in, while the identical request
without the tag is not processed at all. -/
theorem bonus_pass_does_not_tag :
    (execute c9InA).map ExecOutput.bonuses = Except.ok [bonusReqA]
    ∧ (execute c9InA).map (fun out => out.spawned.length) = Except.ok 1
    ∧ bonusReqA.dead = true
    ∧ (execute c9InB).map ExecOutput.bonuses = Except.ok [bonusReqB]
    ∧ (execute c9InB).map (fun out => out.spawned.length) = Except.ok 0 :=
  ⟨rfl, rfl, rfl, rfl, rfl⟩

/-- C9 (amended): for every bonus-request entity processed by the bonus
spawn pass — which requires the request to already carry the `Tag('dead')`
marker — a ball is spawned at the request's transform position with height
pinned to 1, launched (not waiting), via `spawnBall` called with the fully
randomized direction built from two `Math.random()` draws, and its point
light is recolored to the fiery orange `[1.0, 0.4, 0.2]` at intensity 60;
the pass itself does not modify the request entities, which a completed tick
returns unchanged. -/
theorem bonus_spawn_props :
    (∀ gs sh rand k b sb, processBonus true gs sh rand k b = Except.ok sb →
        sb.transform = ⟨b.transform.x, 1, b.transform.z⟩
        ∧ sb.light.color = ⟨1.0, 0.4, 0.2⟩ ∧ sb.light.intensity = 60
        ∧ sb.ball.waitingForLaunch = false
        ∧ sb.body.body.position = ⟨b.transform.x, b.transform.z⟩
        ∧ spawnBall true gs ⟨b.transform.x, 1, b.transform.z⟩
            (some ⟨rand k * 2.0 - 1.0, 0, -(rand (k + 1) * 2.0 - 1.0)⟩) sh
          = some { sb with light := ⟨(freshBall gs).color, (freshBall gs).glowIntensity⟩ })
    ∧ (∀ b, b.dead = false → ∀ sceneLoaded gs sh rand k,
        bonusPass sceneLoaded gs sh rand k [b] = Except.ok ([], k))
    ∧ (∀ inp out, execute inp = Except.ok out → out.bonuses = inp.bonuses) := by
  refine ⟨?_, ?_, ?_⟩
  · intro gs sh rand k b sb h
    rw [processBonus, spawnBall_loaded_some] at h
    injection h with h2
    rw [← h2]
    exact ⟨rfl, rfl, rfl, rfl, rfl, rfl⟩
  · intro b hb sceneLoaded gs sh rand k
    simp [bonusPass, hb]
  · intro inp out h
    simp only [execute] at h
    repeat' split at h
    any_goals exact Except.noConfusion h
    all_goals injection h with h2
    all_goals rw [← h2]

/-- The ball spawned for `bonusReqA` in the witness tick. -/
noncomputable def sbBonus : SpawnedBall :=
  { ball := (launchBall (freshBall gs0) (freshBody ⟨4, 1, 7⟩)
        ⟨(0 : ℝ) * 2.0 - 1.0, 0, -((0 : ℝ) * 2.0 - 1.0)⟩).ball,
    transform := ⟨4, 1, 7⟩,
    body := (launchBall (freshBall gs0) (freshBody ⟨4, 1, 7⟩)
        ⟨(0 : ℝ) * 2.0 - 1.0, 0, -((0 : ℝ) * 2.0 - 1.0)⟩).body,
    light := ⟨⟨1.0, 0.4, 0.2⟩, 60⟩,
    impactDamage := 1, shadow := false, name := "The Ball" }

/-- Witness for the amended C9 at a concrete processed bonus request. -/
theorem bonus_spawn_props_witness :
    sbBonus.transform = ⟨bonusReqA.transform.x, 1, bonusReqA.transform.z⟩
    ∧ sbBonus.light.color = ⟨1.0, 0.4, 0.2⟩ ∧ sbBonus.light.intensity = 60
    ∧ sbBonus.ball.waitingForLaunch = false
    ∧ sbBonus.body.body.position = ⟨bonusReqA.transform.x, bonusReqA.transform.z⟩
    ∧ spawnBall true gs0 ⟨bonusReqA.transform.x, 1, bonusReqA.transform.z⟩
        (some ⟨(fun _ => (0 : ℝ)) 0 * 2.0 - 1.0, 0,
          -((fun _ => (0 : ℝ)) (0 + 1) * 2.0 - 1.0)⟩) false
      = some { sbBonus with light := ⟨(freshBall gs0).color, (freshBall gs0).glowIntensity⟩ } :=
  bonus_spawn_props.1 gs0 false (fun _ => 0) 0 bonusReqA sbBonus rfl

lemma vec3_ne_zero_len_pos (d : Vec3) (hd : d ≠ ⟨0, 0, 0⟩) :
    0 < d.x * d.x + d.y * d.y + d.z * d.z := by
  have hge : (0 : ℝ) ≤ d.x * d.x + d.y * d.y + d.z * d.z := by
    nlinarith [mul_self_nonneg d.x, mul_self_nonneg d.y, mul_self_nonneg d.z]
  rcases hge.eq_or_lt with h | h
  · exfalso
    have hx : d.x * d.x = 0 := le_antisymm
      (by nlinarith [mul_self_nonneg d.y, mul_self_nonneg d.z]) (mul_self_nonneg d.x)
    have hy : d.y * d.y = 0 := le_antisymm
      (by nlinarith [mul_self_nonneg d.x, mul_self_nonneg d.z]) (mul_self_nonneg d.y)
    have hz : d.z * d.z = 0 := le_antisymm
      (by nlinarith [mul_self_nonneg d.x, mul_self_nonneg d.y]) (mul_self_nonneg d.z)
    apply hd
    ext
    · exact mul_self_eq_zero.mp hx
    · exact mul_self_eq_zero.mp hy
    · exact mul_self_eq_zero.mp hz
  · exact h

/-- C10: `launchBall` mutates its direction argument in place: for every
nonzero direction the caller-visible vector afterwards equals its original
value normalized and scaled by `ball.speed` (here spelled out as a rescale by
`ball.speed / length`), the body's planar velocity is set to the x and z
components of that mutated vector, and the waiting flag is cleared. -/
theorem launchBall_mutates_direction (ball : Ball) (body : Physics2DBody) (d : Vec3)
    (hd : d ≠ ⟨0, 0, 0⟩) :
    (launchBall ball body d).direction =
      ⟨d.x * (ball.speed / Real.sqrt (d.x * d.x + d.y * d.y + d.z * d.z)),
       d.y * (ball.speed / Real.sqrt (d.x * d.x + d.y * d.y + d.z * d.z)),
       d.z * (ball.speed / Real.sqrt (d.x * d.x + d.y * d.y + d.z * d.z))⟩
    ∧ (launchBall ball body d).body.body.velocity =
      ⟨(launchBall ball body d).direction.x, (launchBall ball body d).direction.z⟩
    ∧ (launchBall ball body d).ball.waitingForLaunch = false := by
  have hlen := vec3_ne_zero_len_pos d hd
  refine ⟨?_, rfl, rfl⟩
  show scale3 (normalize3 d) ball.speed = _
  rw [normalize3_pos d hlen]
  ext <;> simp [scale3] <;> ring

/-- Witness for C10 at direction `[3, 0, 4]` with a fresh default ball. -/
theorem launchBall_mutates_direction_witness :
    (launchBall Ball.new (freshBody ⟨0, 1, 23⟩) ⟨3, 0, 4⟩).direction =
      ⟨3 * (Ball.new.speed / Real.sqrt ((3 : ℝ) * 3 + 0 * 0 + 4 * 4)),
       0 * (Ball.new.speed / Real.sqrt ((3 : ℝ) * 3 + 0 * 0 + 4 * 4)),
       4 * (Ball.new.speed / Real.sqrt ((3 : ℝ) * 3 + 0 * 0 + 4 * 4))⟩
    ∧ (launchBall Ball.new (freshBody ⟨0, 1, 23⟩) ⟨3, 0, 4⟩).body.body.velocity =
      ⟨(launchBall Ball.new (freshBody ⟨0, 1, 23⟩) ⟨3, 0, 4⟩).direction.x,
       (launchBall Ball.new (freshBody ⟨0, 1, 23⟩) ⟨3, 0, 4⟩).direction.z⟩
    ∧ (launchBall Ball.new (freshBody ⟨0, 1, 23⟩) ⟨3, 0, 4⟩).ball.waitingForLaunch
        = false :=
  launchBall_mutates_direction Ball.new (freshBody ⟨0, 1, 23⟩) ⟨3, 0, 4⟩
    (by intro h; have h4 := congrArg Vec3.z h; norm_num at h4)

end SB
